import Mathlib

/-!
# Verification of the `tea` graph store (sqlite backend)

A shallow embedding of the `tea` crate: the identifier constructors from
`src/tea/types.rs`, the error taxonomy from `src/tea/errors.rs`, and the
sqlite-backed `TeaConnection` implementation from `src/tea/sqlite/mod.rs`.

The sqlite database is modelled as a `Store`: the `ents` table is a list of
`EntRow` (columns `id`, `type`, `data`) and the `assocs` table a list of
`AssocStorage` rows (columns `type`, `id1`, `id2`, `last_change_unixtime`,
`data`, with primary key `(id1, id2, type)`).  SQL statements become list
operations: `SELECT ... WHERE` is `List.filter`, `DELETE ... WHERE` keeps the
non-matching rows, `INSERT` appends after a primary-key check (a collision is
sqlite's constraint-violation error, surfaced as `StorageError`), `UPDATE`
maps over the rows, and `ORDER BY` sorts.  `Utc::now()` becomes an explicit
`now : Int` argument (whole seconds, as stored in `last_change_unixtime`).
Operations that mutate return the committed store next to the result, because
`ent_delete` commits its transaction even when it reports `EntNotFound`.
-/

namespace Tea

/-- Engine-level (rusqlite) failures that the backend wraps into
`TeaError.StorageError`.  Only the primary-key constraint violation is needed
here: it is what a plain `INSERT` or a re-keying `UPDATE` raises on a
duplicate `(id1, id2, type)`. -/
inductive SqliteError where
  | constraintViolation
  deriving DecidableEq, Repr

/-- The closed error taxonomy of `src/tea/errors.rs` (`enum TeaError`).
Identifier payloads are the underlying 64-bit integers. -/
inductive TeaError where
  | EntNotFound (id : Nat)
  | EntAlreadyExists (id : Nat)
  | AssocNotFound (ty id1 id2 : Nat)
  | AssocAlreadyExists (ty id1 id2 : Nat)
  | AssocUpdateModifiedTooManyRows (ty id1 id2 modified expected : Nat)
  | AssocRangePageTooLarge (requested_limit maximum_limit : Nat)
  | EntUpdateModifiedTooManyRows (id modified expected : Nat)
  | StorageError (e : SqliteError)
  | ZeroIsNotAValidID
  | ZeroIsNotAValidType
  | SharedResourcePoisoned
  deriving DecidableEq, Repr

instance {ε α : Type} [DecidableEq ε] [DecidableEq α] : DecidableEq (Except ε α) := fun x y =>
  match x, y with
  | .error e, .error f =>
    if h : e = f then .isTrue (by rw [h]) else .isFalse (fun c => h (by cases c; rfl))
  | .ok a, .ok b =>
    if h : a = b then .isTrue (by rw [h]) else .isFalse (fun c => h (by cases c; rfl))
  | .error _, .ok _ => .isFalse (fun c => by cases c)
  | .ok _, .error _ => .isFalse (fun c => by cases c)

/-- Source `EntityId::from_u64` (types.rs): rejects zero with `ZeroIsNotAValidID`. -/
def EntityId.from_u64 (n : Nat) : Except TeaError Nat :=
  if n = 0 then .error .ZeroIsNotAValidID else .ok n

/-- Source `EntityType::from_u64` (types.rs): rejects zero with `ZeroIsNotAValidType`. -/
def EntityType.from_u64 (n : Nat) : Except TeaError Nat :=
  if n = 0 then .error .ZeroIsNotAValidType else .ok n

/-- Source `AssocType::from_u64` (types.rs): rejects zero with `ZeroIsNotAValidID`
(the source returns `TeaError::ZeroIsNotAValidID`, not the type-tag error). -/
def AssocType.from_u64 (n : Nat) : Except TeaError Nat :=
  if n = 0 then .error .ZeroIsNotAValidID else .ok n

/-- Source `AssocStorage` (types.rs); also used for rows of the `assocs` table, whose
columns carry exactly these fields.  `last_change` is the stored
`last_change_unixtime`, whole seconds. -/
structure AssocStorage where
  ty : Nat
  id1 : Nat
  id2 : Nat
  last_change : Int
  data : List Nat
  deriving DecidableEq, Repr

/-- A row of the `ents` table (`id`, `type`, `data`). -/
structure EntRow where
  id : Nat
  ty : Nat
  data : List Nat
  deriving DecidableEq, Repr

/-- The database state: both tables created by the backend. -/
structure Store where
  ents : List EntRow
  assocs : List AssocStorage
  deriving DecidableEq, Repr

/-- Source `AssocRangeAfter` (types.rs). -/
inductive AssocRangeAfter where
  | First
  | ID (id : Nat)
  deriving DecidableEq, Repr

/-- Source `AssocRangeLimit` (types.rs). -/
inductive AssocRangeLimit where
  | Default
  | Limit (n : Nat)
  | Maximum
  deriving DecidableEq, Repr

/-- Well-formedness of a store reachable through the API: primary keys are
unique (`id` on `ents`, `(id1, id2, type)` on `assocs`) and every persisted
identifier and type tag is non-zero, since they enter through the `from_u64`
constructors. -/
def Store.WF (s : Store) : Prop :=
  s.ents.Pairwise (fun e f => e.id ≠ f.id) ∧
  (∀ e ∈ s.ents, e.id ≠ 0 ∧ e.ty ≠ 0) ∧
  s.assocs.Pairwise (fun a b => ¬ (a.ty = b.ty ∧ a.id1 = b.id1 ∧ a.id2 = b.id2)) ∧
  (∀ a ∈ s.assocs, a.ty ≠ 0 ∧ a.id1 ≠ 0 ∧ a.id2 ≠ 0)

instance (s : Store) : Decidable s.WF := by
  unfold Store.WF; infer_instance

/-- Source `TeaSqliteConnection::ent_get`: `SELECT type, data FROM ents WHERE id = ?1`,
then 0 rows is `EntNotFound`, 1 row decodes the type through
`EntityType::from_u64` (`try_into`), more rows is the integrity guard. -/
def ent_get (s : Store) (id : Nat) : Except TeaError (Nat × List Nat) :=
  let rows := s.ents.filter (fun e => decide (e.id = id))
  match rows with
  | [] => .error (.EntNotFound id)
  | [e] => (EntityType.from_u64 e.ty).map (fun t => (t, e.data))
  | rs => .error (.EntUpdateModifiedTooManyRows id rs.length 1)

/-- Source `TeaSqliteConnection::ent_update`: `UPDATE ents SET data = ?2 WHERE id = ?1
RETURNING type`.  The `ty` argument is ignored (`_ty` in the source).  On one
returned row the result is `(stored type, data.to_vec())` — the *new* data
vector, not the previous contents.  The `UPDATE` itself has executed (and, in
autocommit mode, committed) by the time the row count is inspected. -/
def ent_update (s : Store) (id : Nat) (_ty : Nat) (data : List Nat) :
    Store × Except TeaError (Nat × List Nat) :=
  let rows := (s.ents.filter (fun e => decide (e.id = id))).map EntRow.ty
  let s2 : Store := { s with
    ents := s.ents.map (fun e => if e.id = id then { e with data := data } else e) }
  match rows with
  | [] => (s2, .error (.EntNotFound id))
  | [t] => (s2, (EntityType.from_u64 t).map (fun tb => (tb, data)))
  | ts => (s2, .error (.EntUpdateModifiedTooManyRows id ts.length 1))

/-- Source `TeaSqliteConnection::ent_delete`: one transaction issues
`DELETE FROM assocs WHERE id1 = ?1 OR id2 = ?1`, then
`DELETE FROM ents WHERE id = ?1 RETURNING type, data`.  The returned rows are
decoded through `EntityType::from_u64` before the commit, so a zero stored
type aborts (rolls back) the whole transaction; otherwise `txn.commit()` runs
*before* the row-count result — even `EntNotFound` is returned only after the
assoc cleanup has committed. -/
def ent_delete (s : Store) (id : Nat) : Store × Except TeaError (Nat × List Nat) :=
  let rows := s.ents.filter (fun e => decide (e.id = id))
  if rows.any (fun e => decide (e.ty = 0)) then
    (s, .error .ZeroIsNotAValidType)
  else
    let s2 : Store :=
      { ents := s.ents.filter (fun e => decide (¬ e.id = id)),
        assocs := s.assocs.filter (fun a => decide (¬ (a.id1 = id ∨ a.id2 = id))) }
    match rows with
    | [] => (s2, .error (.EntNotFound id))
    | [e] => (s2, .ok (e.ty, e.data))
    | rs => (s2, .error (.EntUpdateModifiedTooManyRows id rs.length 1))

/-- The primary key of the `assocs` table, `(id1, id2, type)`, compared against
a candidate row. -/
abbrev assocKeyMatches (ty id1 id2 : Nat) (a : AssocStorage) : Prop :=
  a.ty = ty ∧ a.id1 = id1 ∧ a.id2 = id2

/-- Source `TeaSqliteConnection::assoc_add`: a plain
`INSERT INTO assocs (type, id1, id2, last_change_unixtime, data)` with
`last_change_unixtime = Utc::now().timestamp()`.  A duplicate primary key makes
sqlite raise a constraint violation, which `TeaSqliteError::wrap` turns into
`TeaError::StorageError`; nothing is written in that case. -/
def assoc_add (s : Store) (now : Int) (ty id1 id2 : Nat) (data : List Nat) :
    Store × Except TeaError Unit :=
  if s.assocs.any (fun a => decide (assocKeyMatches ty id1 id2 a)) then
    (s, .error (.StorageError .constraintViolation))
  else
    ({ s with assocs := s.assocs ++ [⟨ty, id1, id2, now, data⟩] }, .ok ())

/-- Source `TeaSqliteConnection::assoc_change_type`:
`UPDATE assocs SET type = ?1, last_change_unixtime = ?2 WHERE type = ?3 AND
id1 = ?4 AND id2 = ?5 RETURNING last_change_unixtime, data`.  Re-keying a row
onto an already-occupied `(new_ty, id1, id2)` primary key is a sqlite
constraint violation: the statement is rolled back and the call returns
`StorageError`.  Otherwise 0 returned rows is `AssocNotFound {ty, id1, id2}`
(the *old* triple), and 1 row rebuilds the record with `ty = new_ty` and the
post-update `last_change` (= `now`). -/
def assoc_change_type (s : Store) (now : Int) (ty id1 id2 new_ty : Nat) :
    Store × Except TeaError AssocStorage :=
  let hits := s.assocs.filter (fun a => decide (assocKeyMatches ty id1 id2 a))
  if ¬ new_ty = ty ∧ ¬ hits = [] ∧
      s.assocs.any (fun a => decide (assocKeyMatches new_ty id1 id2 a)) then
    (s, .error (.StorageError .constraintViolation))
  else
    let s2 : Store := { s with assocs := s.assocs.map (fun a =>
      if assocKeyMatches ty id1 id2 a then
        { a with ty := new_ty, last_change := now } else a) }
    match hits with
    | [] => (s2, .error (.AssocNotFound ty id1 id2))
    | [a] => (s2, .ok { ty := new_ty, id1 := id1, id2 := id2,
                        last_change := now, data := a.data })
    | hs => (s2, .error (.AssocUpdateModifiedTooManyRows ty id1 id2 hs.length 1))

/-- The `collect::<Result<Vec<_>, _>>()` idiom: keep all `Ok` values in order,
short-circuiting at the first `Err`. -/
def collectResults {α : Type} : List (Except TeaError α) → Except TeaError (List α)
  | [] => .ok []
  | x :: rest =>
    match x with
    | .error e => .error e
    | .ok a => (collectResults rest).map (fun l => a :: l)

/-- Row decoding in `assoc_get`: each column goes back through its `try_into`
(`AssocType::from_u64`, then `EntityId::from_u64` twice). -/
def rowDecodeGet (a : AssocStorage) : Except TeaError AssocStorage := do
  let ty ← AssocType.from_u64 a.ty
  let id1 ← EntityId.from_u64 a.id1
  let id2 ← EntityId.from_u64 a.id2
  return { ty := ty, id1 := id1, id2 := id2, last_change := a.last_change, data := a.data }

/-- Source `TeaSqliteConnection::assoc_get`: `SELECT ... WHERE type = ?1 AND id1 = ?2
AND last_change_unixtime <= ?3 AND last_change_unixtime >= ?4 AND id2 IN
(...)`, one placeholder per element of `id2_set` (sqlite accepts an empty
`IN ()` list, which matches nothing).  `high` defaults to `Utc::now()` and
`low` to the epoch (`0`). -/
def assoc_get (s : Store) (now : Int) (ty id1 : Nat) (id2_set : List Nat)
    (high low : Option Int) : Except TeaError (List AssocStorage) :=
  let hi := match high with | some t => t | none => now
  let lo := match low with | some t => t | none => 0
  let rows := s.assocs.filter (fun a =>
    decide (a.ty = ty ∧ a.id1 = id1 ∧ a.last_change ≤ hi ∧ lo ≤ a.last_change ∧
      a.id2 ∈ id2_set))
  collectResults (rows.map rowDecodeGet)

/-- Source `TeaSqliteConnection::assoc_count`: `SELECT count(*) FROM assocs WHERE
type = ?1 AND id1 = ?2`. -/
def assoc_count (s : Store) (ty id1 : Nat) : Except TeaError Nat :=
  .ok (s.assocs.filter (fun a => decide (a.ty = ty ∧ a.id1 = id1))).length

/-- Limit resolution shared by `assoc_range` and `assoc_time_range`:
`Default` reads the `DEFAULT_ASSOCS_PER_PAGE` tunable, `Maximum` the
`MAX_ASSOCS_PER_PAGE` tunable.  The tunables are the `dflt`/`maxp`
parameters threaded through the paginated queries. -/
def resolveLimit (dflt maxp : Nat) : AssocRangeLimit → Nat
  | .Default => dflt
  | .Limit n => n
  | .Maximum => maxp

/-- Cursor resolution in `assoc_range`: `First` becomes `0`, `ID(id)` the raw
id; the SQL then keeps rows with `id2 > cursor`. -/
def afterCursor : AssocRangeAfter → Nat
  | .First => 0
  | .ID k => k

/-- Relation for `ORDER BY id2 ASC` as a sorting relation. -/
def leId2 (a b : AssocStorage) : Prop := a.id2 ≤ b.id2

instance : DecidableRel leId2 := fun a b => by unfold leId2; infer_instance

instance : IsTotal AssocStorage leId2 :=
  ⟨fun a b => Nat.le_total a.id2 b.id2⟩

instance : IsTrans AssocStorage leId2 :=
  ⟨fun _ _ _ h h' => Nat.le_trans h h'⟩

/-- Relation for `ORDER BY last_change_unixtime DESC` as a sorting relation. -/
def geTime (a b : AssocStorage) : Prop := b.last_change ≤ a.last_change

instance : DecidableRel geTime := fun a b => by unfold geTime; infer_instance

instance : IsTotal AssocStorage geTime :=
  ⟨fun a b => Int.le_total b.last_change a.last_change⟩

instance : IsTrans AssocStorage geTime :=
  ⟨fun _ _ _ h h' => Int.le_trans h' h⟩

/-- The row set produced by `assoc_range`'s query before `LIMIT`:
`WHERE type = ?1 AND id1 = ?2 AND id2 > ?3 ORDER BY id2 ASC`. -/
def rangeRows (s : Store) (ty id1 c : Nat) : List AssocStorage :=
  List.insertionSort leId2
    (s.assocs.filter (fun a => decide (a.ty = ty ∧ a.id1 = id1 ∧ c < a.id2)))

/-- Row decoding in `assoc_range` / `assoc_time_range`: only `id2`,
`last_change_unixtime` and `data` are selected; `ty` and `id1` are the query
arguments, and `id2` goes back through `EntityId::from_u64`. -/
def rowDecodeRange (ty id1 : Nat) (a : AssocStorage) : Except TeaError AssocStorage :=
  (EntityId.from_u64 a.id2).map (fun i2 =>
    { ty := ty, id1 := id1, id2 := i2, last_change := a.last_change, data := a.data })

/-- Source `TeaSqliteConnection::assoc_range`.  The resolved limit is checked against
`MAX_ASSOCS_PER_PAGE` (= `maxp`) and rejected with `AssocRangePageTooLarge`
when it exceeds it; otherwise the query runs with `LIMIT`. -/
def assoc_range (dflt maxp : Nat) (s : Store) (ty id1 : Nat)
    (after : AssocRangeAfter) (limit : AssocRangeLimit) :
    Except TeaError (List AssocStorage) :=
  let lim := resolveLimit dflt maxp limit
  if lim > maxp then .error (.AssocRangePageTooLarge lim maxp)
  else
    collectResults
      (((rangeRows s ty id1 (afterCursor after)).take lim).map (rowDecodeRange ty id1))

/-- The row set produced by `assoc_time_range`'s query before `LIMIT`:
`WHERE type = ?1 AND id1 = ?2 AND last_change_unixtime >= ?3 AND
last_change_unixtime <= ?4 ORDER BY last_change_unixtime DESC`. -/
def timeRangeRows (s : Store) (ty id1 : Nat) (high low : Int) : List AssocStorage :=
  List.insertionSort geTime
    (s.assocs.filter (fun a =>
      decide (a.ty = ty ∧ a.id1 = id1 ∧ low ≤ a.last_change ∧ a.last_change ≤ high)))

/-- Source `TeaSqliteConnection::assoc_time_range`: same limit policy as
`assoc_range`, then the time-window query capped by `LIMIT`. -/
def assoc_time_range (dflt maxp : Nat) (s : Store) (ty id1 : Nat)
    (high low : Int) (limit : AssocRangeLimit) : Except TeaError (List AssocStorage) :=
  let lim := resolveLimit dflt maxp limit
  if lim > maxp then .error (.AssocRangePageTooLarge lim maxp)
  else
    collectResults (((timeRangeRows s ty id1 high low).take lim).map (rowDecodeRange ty id1))

/-- Exhaustive pagination of `assoc_range` with `Limit(1)`, as in the spec's
property test: start at `First`, then repeatedly continue from `After(id2)` of
the row just returned, until a page comes back empty (or errors).  `fuel`
bounds the number of round trips; the cursor is carried as a raw id, with `0`
standing for `First` (stored ids are never zero). -/
def paginateAll (dflt maxp : Nat) (s : Store) (ty id1 : Nat) :
    Nat → Nat → List AssocStorage
  | 0, _ => []
  | fuel + 1, cur =>
    match assoc_range dflt maxp s ty id1
        (if cur = 0 then AssocRangeAfter.First else AssocRangeAfter.ID cur)
        (.Limit 1) with
    | .error _ => []
    | .ok [] => []
    | .ok (a :: _) => a :: paginateAll dflt maxp s ty id1 fuel a.id2

/-! ## Ordering relations and concrete stores used in the theorems -/

/-- A store holding the single assoc `(ty 1, id1 1, id2 2)`. -/
def stC2 : Store := { ents := [], assocs := [⟨1, 1, 2, 0, [5]⟩] }

/-- A store where id 3 is not an entity but three assocs exist, two of them
incident on 3. -/
def stC9 : Store :=
  { ents := [⟨4, 1, []⟩],
    assocs := [⟨1, 3, 4, 0, []⟩, ⟨1, 5, 3, 0, []⟩, ⟨1, 5, 6, 0, []⟩] }

/-- A store where entity 3 exists with two incident assocs and one unrelated
assoc. -/
def stC1 : Store :=
  { ents := [⟨3, 1, []⟩],
    assocs := [⟨1, 3, 4, 0, []⟩, ⟨1, 5, 3, 0, []⟩, ⟨1, 5, 6, 0, []⟩] }

/-- A store holding the single entity `(id 1, type 5, data [1])`. -/
def stC5 : Store := { ents := [⟨1, 5, [1]⟩], assocs := [] }

/-- Strict ordering by `id2` — what "ordered by `id2` ascending" means for
rows with pairwise-distinct `id2`. -/
def ltId2 (a b : AssocStorage) : Prop := a.id2 < b.id2

instance : IsAntisymm AssocStorage ltId2 :=
  ⟨fun _ _ h h' => absurd (Nat.lt_trans h h') (Nat.lt_irrefl _)⟩

instance : IsTrans AssocStorage ltId2 :=
  ⟨fun _ _ _ h h' => Nat.lt_trans h h'⟩

/-- A store with three assocs of type 1 out of id1 1 (ids2 2, 4, 7, inserted
out of order) and one unrelated assoc. -/
def stC4 : Store :=
  { ents := [],
    assocs := [⟨1, 1, 7, 0, []⟩, ⟨1, 1, 2, 0, []⟩, ⟨2, 3, 9, 0, []⟩, ⟨1, 1, 4, 0, []⟩] }

/-- A store where both `(1, 1, 2)` and `(2, 1, 2)` exist, so re-keying the
first onto type `2` collides with the second. -/
def stC7 : Store := { ents := [], assocs := [⟨1, 1, 2, 0, []⟩, ⟨2, 1, 2, 0, []⟩] }

/-- A store holding the single assoc `(ty 1, id1 1, id2 2)` with
`last_change 7` and data `[3]`. -/
def stC7w : Store := { ents := [], assocs := [⟨1, 1, 2, 7, [3]⟩] }

/-! ## Helper lemmas -/

/-- In a list whose elements pairwise never both satisfy `p`, filtering by `p`
around a member that satisfies it yields exactly that member.  This is how a
`WHERE` clause on a primary key pins down a single row. -/
theorem filter_eq_singleton_of_pairwise {α : Type} {p : α → Bool} {l : List α} {a : α}
    (hp : l.Pairwise (fun x y => ¬ (p x = true ∧ p y = true)))
    (ha : a ∈ l) (hpa : p a = true) : l.filter p = [a] := by
  induction l with
  | nil => cases ha
  | cons x xs ih =>
    rcases List.pairwise_cons.mp hp with ⟨hx, hxs⟩
    rcases List.mem_cons.mp ha with rfl | hmem
    · have hnil : xs.filter p = [] := by
        apply List.filter_eq_nil_iff.mpr
        intro y hy hpy
        exact hx y hy ⟨hpa, hpy⟩
      simp [List.filter_cons, hpa, hnil]
    · have hpx : p x = false := by
        rcases hfx : p x with _ | _
        · rfl
        · exact absurd ⟨hfx, hpa⟩ (hx a hmem)
      simp [List.filter_cons, hpx, ih hxs hmem]

/-- If the `collect` idiom fails, the failure was one of the elements. -/
theorem collectResults_error_mem {α : Type} {l : List (Except TeaError α)} {e : TeaError}
    (h : collectResults l = .error e) : Except.error e ∈ l := by
  induction l with
  | nil => simp [collectResults] at h
  | cons x rest ih =>
    match x with
    | .error f =>
      have : f = e := by simpa [collectResults] using h
      subst this; exact List.mem_cons_self _ _
    | .ok a =>
      rcases hr : collectResults rest with f | l'
      · rw [collectResults, hr] at h
        simp only [Except.map] at h
        injection h with h
        subst h
        exact List.mem_cons_of_mem _ (ih hr)
      · rw [collectResults, hr] at h; simp [Except.map] at h

/-- If every element already decodes to itself, collecting is the identity. -/
theorem collectResults_map_id {l : List AssocStorage}
    {f : AssocStorage → Except TeaError AssocStorage}
    (h : ∀ a ∈ l, f a = .ok a) : collectResults (l.map f) = .ok l := by
  induction l with
  | nil => rfl
  | cons x rest ih =>
    have hx := h x (List.mem_cons_self _ _)
    have hrest := ih (fun a ha => h a (List.mem_cons_of_mem _ ha))
    simp [collectResults, hx, hrest, Except.map]

/-- Row decoding in the range queries can only fail with `ZeroIsNotAValidID`
(a zero `id2` coming back from the engine). -/
theorem rowDecodeRange_error_eq {ty id1 : Nat} {a : AssocStorage} {e : TeaError}
    (h : rowDecodeRange ty id1 a = .error e) : e = .ZeroIsNotAValidID := by
  unfold rowDecodeRange EntityId.from_u64 at h
  by_cases h2 : a.id2 = 0
  · rw [if_pos h2] at h
    simpa [Except.map] using h.symm
  · rw [if_neg h2] at h
    simp [Except.map] at h

/-- A successful `rowDecodeRange` on a row already carrying the queried `ty`
and `id1` returns the row itself. -/
theorem rowDecodeRange_ok {ty id1 : Nat} {a : AssocStorage}
    (hty : a.ty = ty) (hid1 : a.id1 = id1) (h2 : a.id2 ≠ 0) :
    rowDecodeRange ty id1 a = .ok a := by
  cases a
  simp_all [rowDecodeRange, EntityId.from_u64, Except.map]

/-- A successful `rowDecodeGet` on a row with non-zero fields is the row. -/
theorem rowDecodeGet_ok {a : AssocStorage}
    (hty : a.ty ≠ 0) (h1 : a.id1 ≠ 0) (h2 : a.id2 ≠ 0) :
    rowDecodeGet a = .ok a := by
  cases a
  simp_all [rowDecodeGet, AssocType.from_u64, EntityId.from_u64, Bind.bind, Except.bind,
    Pure.pure, Except.pure]

/-! ## C8: zero identifiers -/

/-- C8 counterexample: the claim says `AssocType::from_u64(0)` fails with
`ZeroIsNotAValidType`, but the source (types.rs line 154) returns
`ZeroIsNotAValidID` for a zero assoc type. -/
theorem assocType_zero_uses_id_error :
    AssocType.from_u64 0 = .error .ZeroIsNotAValidID ∧
    AssocType.from_u64 0 ≠ .error .ZeroIsNotAValidType := by decide

/-- C8 (amended): `EntityId::from_u64(0)` fails with `ZeroIsNotAValidID`,
`EntityType::from_u64(0)` fails with `ZeroIsNotAValidType`, and
`AssocType::from_u64(0)` fails with `ZeroIsNotAValidID` (not the type-tag
error); every non-zero input succeeds for all three constructors. -/
theorem from_u64_zero_rejected_nonzero_accepted :
    EntityId.from_u64 0 = .error .ZeroIsNotAValidID ∧
    EntityType.from_u64 0 = .error .ZeroIsNotAValidType ∧
    AssocType.from_u64 0 = .error .ZeroIsNotAValidID ∧
    ∀ n : Nat, n ≠ 0 →
      EntityId.from_u64 n = .ok n ∧ EntityType.from_u64 n = .ok n ∧
        AssocType.from_u64 n = .ok n :=
  ⟨rfl, rfl, rfl, fun n hn => by
    simp [EntityId.from_u64, EntityType.from_u64, AssocType.from_u64, hn]⟩

theorem from_u64_zero_rejected_nonzero_accepted_witness :
    EntityId.from_u64 3 = .ok 3 ∧ EntityType.from_u64 3 = .ok 3 ∧
      AssocType.from_u64 3 = .ok 3 :=
  from_u64_zero_rejected_nonzero_accepted.2.2.2 3 (by decide)

/-! ## C10: `assoc_get` with an empty `id2_set` -/

/-- C10: `assoc_get` with an empty `id2_set` succeeds with the empty list —
the generated SQL has an empty `IN ()` list, which sqlite accepts and which
matches no row. -/
theorem assoc_get_empty_id2_set (s : Store) (now : Int) (ty id1 : Nat)
    (high low : Option Int) :
    assoc_get s now ty id1 [] high low = .ok [] := by
  have h : s.assocs.filter (fun a =>
      decide (a.ty = ty ∧ a.id1 = id1 ∧
        a.last_change ≤ (match high with | some t => t | none => now) ∧
        (match low with | some t => t | none => 0) ≤ a.last_change ∧
        a.id2 ∈ ([] : List Nat))) = [] :=
    List.filter_eq_nil_iff.mpr (fun a _ => by simp)
  show collectResults ((s.assocs.filter (fun a =>
      decide (a.ty = ty ∧ a.id1 = id1 ∧
        a.last_change ≤ (match high with | some t => t | none => now) ∧
        (match low with | some t => t | none => 0) ≤ a.last_change ∧
        a.id2 ∈ ([] : List Nat)))).map rowDecodeGet) = .ok []
  rw [h]
  rfl

/-! ## C2: `assoc_add` on an existing key -/

/-- C2 counterexample: adding over the existing key `(1, 1, 2)` does *not*
return `AssocAlreadyExists` — the plain `INSERT` hits sqlite's primary-key
constraint and the error is the wrapped `StorageError`.  The store is
unchanged. -/
theorem assoc_add_duplicate_not_already_exists :
    (assoc_add stC2 9 1 1 2 [7]).2 = .error (.StorageError .constraintViolation) ∧
    (assoc_add stC2 9 1 1 2 [7]).2 ≠ .error (.AssocAlreadyExists 1 1 2) ∧
    (assoc_add stC2 9 1 1 2 [7]).1 = stC2 := by decide

/-- C2 (amended): when an assoc with the same `(ty, id1, id2)` key exists,
`assoc_add` fails with `StorageError` (the engine's constraint violation,
not `AssocAlreadyExists`) and the store — in particular the stored assoc —
is unchanged. -/
theorem assoc_add_duplicate_storage_error (s : Store) (now : Int) (ty id1 id2 : Nat)
    (data : List Nat) (h : ∃ a ∈ s.assocs, assocKeyMatches ty id1 id2 a) :
    assoc_add s now ty id1 id2 data = (s, .error (.StorageError .constraintViolation)) := by
  unfold assoc_add
  rw [if_pos]
  rcases h with ⟨a, ha, hk⟩
  exact List.any_eq_true.mpr ⟨a, ha, by simpa using hk⟩

theorem assoc_add_duplicate_storage_error_witness :
    assoc_add stC2 9 1 1 2 [7] = (stC2, .error (.StorageError .constraintViolation)) :=
  assoc_add_duplicate_storage_error stC2 9 1 1 2 [7] (by decide)

/-! ## C9 and C1: `ent_delete` -/

/-- C9: deleting an id that is not an entity fails with `EntNotFound(id)`,
but the transaction has already committed the cascade: every assoc incident
on `id` is gone from the store the call leaves behind, while `ents` is
untouched. -/
theorem ent_delete_absent_commits_cleanup (s : Store) (id : Nat)
    (hid : ∀ e ∈ s.ents, e.id ≠ id) :
    ent_delete s id =
      ({ ents := s.ents,
         assocs := s.assocs.filter (fun a => decide (¬ (a.id1 = id ∨ a.id2 = id))) },
       .error (.EntNotFound id)) := by
  have hrows : s.ents.filter (fun e => decide (e.id = id)) = [] :=
    List.filter_eq_nil_iff.mpr (fun e he => by simpa using hid e he)
  have hents : s.ents.filter (fun e => decide (¬ e.id = id)) = s.ents :=
    List.filter_eq_self.mpr (fun e he => by simpa using hid e he)
  unfold ent_delete
  rw [hrows, hents]
  rfl

theorem ent_delete_absent_commits_cleanup_witness :
    ent_delete stC9 3 =
      ({ ents := stC9.ents,
         assocs := stC9.assocs.filter (fun a => decide (¬ (a.id1 = 3 ∨ a.id2 = 3))) },
       .error (.EntNotFound 3)) :=
  ent_delete_absent_commits_cleanup stC9 3 (by decide)

/-- C1: after a successful `ent_delete id`, no assoc with `id1 = id` or
`id2 = id` remains, and the surviving assocs are exactly the original ones
incident on neither endpoint (so unrelated assocs are preserved). -/
theorem ent_delete_cascade (s : Store) (id : Nat) (s' : Store) (r : Nat × List Nat)
    (_hpresent : ∃ e ∈ s.ents, e.id = id)
    (h : ent_delete s id = (s', .ok r)) :
    s'.assocs = s.assocs.filter (fun a => decide (¬ (a.id1 = id ∨ a.id2 = id))) ∧
    (∀ a ∈ s'.assocs, ¬ (a.id1 = id ∨ a.id2 = id)) ∧
    (∀ a ∈ s.assocs, ¬ (a.id1 = id ∨ a.id2 = id) → a ∈ s'.assocs) := by
  simp only [ent_delete] at h
  split at h
  · exact absurd (congrArg Prod.snd h) (by simp)
  · split at h
    · exact absurd (congrArg Prod.snd h) (by simp)
    · rw [Prod.mk.injEq] at h
      obtain ⟨hs, -⟩ := h
      subst hs
      refine ⟨rfl, ?_, ?_⟩
      · intro a ha
        simpa using (List.mem_filter.mp ha).2
      · intro a ha hna
        exact List.mem_filter.mpr ⟨ha, by simpa using hna⟩
    · exact absurd (congrArg Prod.snd h) (by simp)

theorem ent_delete_cascade_witness :
    ({ ents := [], assocs := [⟨1, 5, 6, 0, []⟩] } : Store).assocs =
      stC1.assocs.filter (fun a => decide (¬ (a.id1 = 3 ∨ a.id2 = 3))) :=
  (ent_delete_cascade stC1 3 { ents := [], assocs := [⟨1, 5, 6, 0, []⟩] } (1, [])
    (by decide) (by decide)).1

/-! ## C5 and C6: `ent_update` -/

/-- Under the entity primary key, the `WHERE id = ?1` filter finds exactly the
one row. -/
theorem ents_filter_eq_singleton {s : Store} {id : Nat} {e : EntRow}
    (hwf : s.WF) (he : e ∈ s.ents) (hid : e.id = id) :
    s.ents.filter (fun f => decide (f.id = id)) = [e] := by
  apply filter_eq_singleton_of_pairwise _ he (by simpa using hid)
  refine hwf.1.imp ?_
  intro x y hxy hc
  rcases hc with ⟨hx, hy⟩
  simp only [decide_eq_true_eq] at hx hy
  exact hxy (hx.trans hy.symm)

/-- Characterization of `ent_update` on a present entity: the data cell is
replaced and the call returns the *stored* type paired with the *new* data
(the source returns `data.to_vec()`, not the previous contents). -/
theorem ent_update_core {s : Store} {id : Nat} (ty : Nat) (data : List Nat) {e : EntRow}
    (hwf : s.WF) (he : e ∈ s.ents) (hid : e.id = id) :
    ent_update s id ty data =
      ({ s with ents := s.ents.map (fun f =>
          if f.id = id then { f with data := data } else f) },
       .ok (e.ty, data)) := by
  have hrows := ents_filter_eq_singleton hwf he hid
  have hty : e.ty ≠ 0 := ((hwf.2.1) e he).2
  unfold ent_update
  rw [hrows]
  simp [EntityType.from_u64, hty, Except.map]

/-- Reading back through `ent_get` after the update returns the stored type
and the new data. -/
theorem ent_get_after_update {s : Store} {id : Nat} {e : EntRow} (data : List Nat)
    (hwf : s.WF) (he : e ∈ s.ents) (hid : e.id = id) :
    ent_get { s with ents := s.ents.map (fun f =>
        if f.id = id then { f with data := data } else f) } id
      = .ok (e.ty, data) := by
  have hty : e.ty ≠ 0 := ((hwf.2.1) e he).2
  have hfe : (if e.id = id then { e with data := data } else e) =
      ({ e with data := data } : EntRow) := if_pos hid
  have hrows : (s.ents.map (fun f => if f.id = id then { f with data := data } else f)).filter
      (fun g => decide (g.id = id)) = [{ e with data := data }] := by
    rw [← hfe]
    refine filter_eq_singleton_of_pairwise ?_ (List.mem_map_of_mem _ he) ?_
    · rw [List.pairwise_map]
      refine hwf.1.imp ?_
      intro x y hxy hc
      rcases hc with ⟨hx, hy⟩
      simp only [decide_eq_true_eq] at hx hy
      have hxid : (if x.id = id then ({ x with data := data } : EntRow) else x).id = x.id := by
        split <;> rfl
      have hyid : (if y.id = id then ({ y with data := data } : EntRow) else y).id = y.id := by
        split <;> rfl
      rw [hxid] at hx
      rw [hyid] at hy
      exact hxy (hx.trans hy.symm)
    · rw [hfe]
      simpa using hid
  unfold ent_get
  rw [hrows]
  simp [EntityType.from_u64, hty, Except.map]

/-- C5 counterexample: with the single entity `(id 1, type 5, data [1])`,
`ent_update(1, 7, [2])` returns `(5, [2])` — the stored type together with
the *new* data — and not `(5, [1])`, the pair of values held before the
update that the claim promises. -/
theorem ent_update_returns_new_data :
    (ent_update stC5 1 7 [2]).2 = .ok (5, [2]) ∧
    (ent_update stC5 1 7 [2]).2 ≠ .ok (5, [1]) := by decide

/-- C5 (amended): for a present entity, `ent_update(id, ty, data)` replaces
the stored data with `data` and returns `(ty_before, data)` — the type the
row held before the update paired with (a copy of) the *new* data, not the
previous data. -/
theorem ent_update_replaces_data_returns_stored_type (s : Store) (id ty : Nat)
    (data : List Nat) (e : EntRow) (hwf : s.WF) (he : e ∈ s.ents) (hid : e.id = id) :
    (ent_update s id ty data).2 = .ok (e.ty, data) ∧
    ent_get (ent_update s id ty data).1 id = .ok (e.ty, data) := by
  rw [ent_update_core ty data hwf he hid]
  exact ⟨rfl, ent_get_after_update data hwf he hid⟩

theorem ent_update_replaces_data_returns_stored_type_witness :
    (ent_update stC5 1 7 [2]).2 = .ok (5, [2]) :=
  (ent_update_replaces_data_returns_stored_type stC5 1 7 [2] ⟨1, 5, [1]⟩
    (by decide) (by decide) (by decide)).1

/-- C6: `ent_update` never changes an entity's stored type: the `(id, type)`
projection of the table is untouched, the returned type is the stored one
(so not the `ty` argument whenever they differ), and a subsequent `ent_get`
still reports the original type. -/
theorem ent_update_preserves_type (s : Store) (id ty : Nat) (data : List Nat)
    (e : EntRow) (hwf : s.WF) (he : e ∈ s.ents) (hid : e.id = id) :
    (ent_update s id ty data).2 = .ok (e.ty, data) ∧
    ((ent_update s id ty data).1.ents.map (fun f => (f.id, f.ty)) =
      s.ents.map (fun f => (f.id, f.ty))) ∧
    (ty ≠ e.ty → (ent_update s id ty data).2 ≠ .ok (ty, data)) ∧
    ent_get (ent_update s id ty data).1 id = .ok (e.ty, data) := by
  rw [ent_update_core ty data hwf he hid]
  refine ⟨rfl, ?_, ?_, ent_get_after_update data hwf he hid⟩
  · show (s.ents.map _).map _ = _
    rw [List.map_map]
    apply List.map_congr_left
    intro x _
    show (fun f => (f.id, f.ty)) (if x.id = id then { x with data := data } else x) = _
    split <;> rfl
  · intro hne hcontra
    simp only [Except.ok.injEq, Prod.mk.injEq] at hcontra
    exact hne hcontra.1.symm

theorem ent_update_preserves_type_witness :
    (ent_update stC5 1 7 [2]).2 ≠ .ok (7, [2]) :=
  (ent_update_preserves_type stC5 1 7 [2] ⟨1, 5, [1]⟩
    (by decide) (by decide) (by decide)).2.2.1 (by decide)

/-! ## C3: the page-limit policy -/

/-- Decoding the selected rows can never produce `AssocRangePageTooLarge`. -/
theorem collect_range_no_pageTooLarge (ty id1 : Nat) (rows : List AssocStorage)
    (r m : Nat) :
    collectResults (rows.map (rowDecodeRange ty id1)) ≠
      .error (.AssocRangePageTooLarge r m) := by
  intro h
  rcases List.mem_map.mp (collectResults_error_mem h) with ⟨a, -, ha⟩
  have := rowDecodeRange_error_eq (e := .AssocRangePageTooLarge r m) ha
  exact absurd this (by simp)

theorem assoc_range_pageTooLarge {dflt maxp : Nat} (s : Store) (ty id1 : Nat)
    (after : AssocRangeAfter) {limit : AssocRangeLimit}
    (h : resolveLimit dflt maxp limit > maxp) :
    assoc_range dflt maxp s ty id1 after limit =
      .error (.AssocRangePageTooLarge (resolveLimit dflt maxp limit) maxp) :=
  if_pos h

theorem assoc_range_of_le {dflt maxp : Nat} (s : Store) (ty id1 : Nat)
    (after : AssocRangeAfter) {limit : AssocRangeLimit}
    (h : ¬ resolveLimit dflt maxp limit > maxp) :
    assoc_range dflt maxp s ty id1 after limit =
      collectResults (((rangeRows s ty id1 (afterCursor after)).take
        (resolveLimit dflt maxp limit)).map (rowDecodeRange ty id1)) :=
  if_neg h

theorem assoc_time_range_pageTooLarge {dflt maxp : Nat} (s : Store) (ty id1 : Nat)
    (high low : Int) {limit : AssocRangeLimit}
    (h : resolveLimit dflt maxp limit > maxp) :
    assoc_time_range dflt maxp s ty id1 high low limit =
      .error (.AssocRangePageTooLarge (resolveLimit dflt maxp limit) maxp) :=
  if_pos h

theorem assoc_time_range_of_le {dflt maxp : Nat} (s : Store) (ty id1 : Nat)
    (high low : Int) {limit : AssocRangeLimit}
    (h : ¬ resolveLimit dflt maxp limit > maxp) :
    assoc_time_range dflt maxp s ty id1 high low limit =
      collectResults (((timeRangeRows s ty id1 high low).take
        (resolveLimit dflt maxp limit)).map (rowDecodeRange ty id1)) :=
  if_neg h

/-- C3: in both `assoc_range` and `assoc_time_range`, a resolved limit
(`Default` ↦ `DEFAULT_ASSOCS_PER_PAGE`, `Limit(n)` ↦ `n`, `Maximum` ↦
`MAX_ASSOCS_PER_PAGE`) exceeding `MAX_ASSOCS_PER_PAGE` fails with
`AssocRangePageTooLarge { requested_limit := resolved, maximum_limit := max }`;
`Maximum` never trips this check; `Default` trips it exactly when the default
tunable exceeds the maximum tunable. -/
theorem assoc_range_limit_policy (dflt maxp : Nat) (s : Store) (ty id1 : Nat)
    (after : AssocRangeAfter) (high low : Int) :
    (∀ limit : AssocRangeLimit, resolveLimit dflt maxp limit > maxp →
        assoc_range dflt maxp s ty id1 after limit =
          .error (.AssocRangePageTooLarge (resolveLimit dflt maxp limit) maxp) ∧
        assoc_time_range dflt maxp s ty id1 high low limit =
          .error (.AssocRangePageTooLarge (resolveLimit dflt maxp limit) maxp)) ∧
    (∀ r m : Nat,
        assoc_range dflt maxp s ty id1 after .Maximum ≠
          .error (.AssocRangePageTooLarge r m) ∧
        assoc_time_range dflt maxp s ty id1 high low .Maximum ≠
          .error (.AssocRangePageTooLarge r m)) ∧
    ((assoc_range dflt maxp s ty id1 after .Default =
        .error (.AssocRangePageTooLarge dflt maxp)) ↔ dflt > maxp) ∧
    ((assoc_time_range dflt maxp s ty id1 high low .Default =
        .error (.AssocRangePageTooLarge dflt maxp)) ↔ dflt > maxp) := by
  have hmaxle : ¬ resolveLimit dflt maxp .Maximum > maxp := by
    simp [resolveLimit]
  refine ⟨?_, ?_, ?_, ?_⟩
  · intro limit hlim
    exact ⟨assoc_range_pageTooLarge s ty id1 after hlim,
      assoc_time_range_pageTooLarge s ty id1 high low hlim⟩
  · intro r m
    constructor
    · rw [assoc_range_of_le s ty id1 after hmaxle]
      exact collect_range_no_pageTooLarge ty id1 _ r m
    · rw [assoc_time_range_of_le s ty id1 high low hmaxle]
      exact collect_range_no_pageTooLarge ty id1 _ r m
  · constructor
    · intro h
      by_contra hle
      rw [assoc_range_of_le s ty id1 after (by simpa [resolveLimit] using hle)] at h
      exact collect_range_no_pageTooLarge ty id1 _ dflt maxp h
    · intro h
      exact assoc_range_pageTooLarge s ty id1 after (by simpa [resolveLimit] using h)
  · constructor
    · intro h
      by_contra hle
      rw [assoc_time_range_of_le s ty id1 high low (by simpa [resolveLimit] using hle)] at h
      exact collect_range_no_pageTooLarge ty id1 _ dflt maxp h
    · intro h
      exact assoc_time_range_pageTooLarge s ty id1 high low (by simpa [resolveLimit] using h)

theorem assoc_range_limit_policy_witness :
    assoc_range 100 500 { ents := [], assocs := [] } 1 1 .First (.Limit 501) =
      .error (.AssocRangePageTooLarge 501 500) :=
  ((assoc_range_limit_policy 100 500 { ents := [], assocs := [] } 1 1 .First 0 0).1
    (.Limit 501) (by decide)).1

/-! ## C4: `assoc_range` ordering and pagination -/

/-- Membership in the `assoc_range` row set is exactly the `WHERE` clause. -/
theorem mem_rangeRows {s : Store} {ty id1 c : Nat} {x : AssocStorage} :
    x ∈ rangeRows s ty id1 c ↔
      x ∈ s.assocs ∧ x.ty = ty ∧ x.id1 = id1 ∧ c < x.id2 := by
  unfold rangeRows
  rw [List.mem_insertionSort]
  simp [List.mem_filter]

/-- Under the `(id1, id2, type)` primary key, the rows scanned by
`assoc_range` are strictly ascending in `id2`. -/
theorem pairwise_lt_rangeRows {s : Store} (hwf : s.WF) (ty id1 c : Nat) :
    (rangeRows s ty id1 c).Pairwise ltId2 := by
  have hfil : (s.assocs.filter (fun a =>
      decide (a.ty = ty ∧ a.id1 = id1 ∧ c < a.id2))).Pairwise
      (fun a b => ¬ (a.ty = b.ty ∧ a.id1 = b.id1 ∧ a.id2 = b.id2)) :=
    (hwf.2.2.1).sublist (List.filter_sublist _)
  have hne : (s.assocs.filter (fun a =>
      decide (a.ty = ty ∧ a.id1 = id1 ∧ c < a.id2))).Pairwise
      (fun a b => a.id2 ≠ b.id2) := by
    refine hfil.imp_of_mem ?_
    intro a b ha hb hR heq
    have ha' := (List.mem_filter.mp ha).2
    have hb' := (List.mem_filter.mp hb).2
    simp only [decide_eq_true_eq] at ha' hb'
    exact hR ⟨ha'.1.trans hb'.1.symm, ha'.2.1.trans hb'.2.1.symm, heq⟩
  have hne' : (rangeRows s ty id1 c).Pairwise (fun a b => a.id2 ≠ b.id2) :=
    ((List.perm_insertionSort leId2 _).pairwise_iff
      (fun {_ _} h => Ne.symm h)).mpr hne
  have hsor : (rangeRows s ty id1 c).Pairwise leId2 :=
    List.sorted_insertionSort leId2 _
  exact (hsor.and hne').imp (fun h => Nat.lt_of_le_of_ne h.1 h.2)

/-- Every scanned row carries the queried `ty` and `id1` and a non-zero
`id2`. -/
theorem rangeRows_fields {s : Store} (hwf : s.WF) (ty id1 c : Nat) :
    ∀ a ∈ rangeRows s ty id1 c, a.ty = ty ∧ a.id1 = id1 ∧ a.id2 ≠ 0 := by
  intro a ha
  rcases mem_rangeRows.mp ha with ⟨hmem, hty, hid1, -⟩
  exact ⟨hty, hid1, (hwf.2.2.2 a hmem).2.2⟩

/-- On a well-formed store, a within-limit `assoc_range` call succeeds and
returns the first `resolved limit` rows of the ordered scan. -/
theorem assoc_range_ok {dflt maxp : Nat} {s : Store} (hwf : s.WF) (ty id1 : Nat)
    (after : AssocRangeAfter) {limit : AssocRangeLimit}
    (hle : ¬ resolveLimit dflt maxp limit > maxp) :
    assoc_range dflt maxp s ty id1 after limit =
      .ok ((rangeRows s ty id1 (afterCursor after)).take
        (resolveLimit dflt maxp limit)) := by
  rw [assoc_range_of_le s ty id1 after hle]
  apply collectResults_map_id
  intro a ha
  rcases rangeRows_fields hwf ty id1 (afterCursor after) a
      (List.take_subset _ _ ha) with ⟨hty, hid1, h2⟩
  exact rowDecodeRange_ok hty hid1 h2

/-- Stepping the cursor: if the ordered scan at cursor `c` starts with `a`,
the scan at cursor `a.id2` is exactly the remainder. -/
theorem rangeRows_cons {s : Store} {ty id1 c : Nat} {a : AssocStorage}
    {rest : List AssocStorage} (hwf : s.WF)
    (h : rangeRows s ty id1 c = a :: rest) :
    rangeRows s ty id1 a.id2 = rest := by
  have hlt0 := pairwise_lt_rangeRows hwf ty id1 c
  rw [h] at hlt0
  rcases List.pairwise_cons.mp hlt0 with ⟨hhead, hrest⟩
  have hlt2 := pairwise_lt_rangeRows hwf ty id1 a.id2
  have hmem_a : a ∈ rangeRows s ty id1 c := by rw [h]; exact List.mem_cons_self _ _
  rcases mem_rangeRows.mp hmem_a with ⟨-, -, -, hac⟩
  have hiff : ∀ x, x ∈ rangeRows s ty id1 a.id2 ↔ x ∈ rest := by
    intro x
    constructor
    · intro hx
      rcases mem_rangeRows.mp hx with ⟨hxm, hxty, hxid1, hxgt⟩
      have hxc : x ∈ rangeRows s ty id1 c :=
        mem_rangeRows.mpr ⟨hxm, hxty, hxid1, Nat.lt_trans hac hxgt⟩
      rw [h] at hxc
      rcases List.mem_cons.mp hxc with rfl | hxr
      · exact absurd hxgt (Nat.lt_irrefl _)
      · exact hxr
    · intro hx
      have hxc : x ∈ rangeRows s ty id1 c := by
        rw [h]; exact List.mem_cons_of_mem _ hx
      rcases mem_rangeRows.mp hxc with ⟨hxm, hxty, hxid1, -⟩
      exact mem_rangeRows.mpr ⟨hxm, hxty, hxid1, hhead x hx⟩
  have hnd1 : (rangeRows s ty id1 a.id2).Nodup :=
    hlt2.imp (fun hxy heq => absurd (heq ▸ hxy) (Nat.lt_irrefl _))
  have hnd2 : rest.Nodup :=
    hrest.imp (fun hxy heq => absurd (heq ▸ hxy) (Nat.lt_irrefl _))
  exact List.eq_of_perm_of_sorted
    ((List.perm_ext_iff_of_nodup hnd1 hnd2).mpr hiff) hlt2 hrest

/-- Exhaustive `Limit(1)` pagination reproduces the full ordered scan, given
enough fuel and a maximum tunable that admits pages of one row. -/
theorem paginateAll_eq {dflt maxp : Nat} {s : Store} {ty id1 : Nat}
    (hwf : s.WF) (hmax : 1 ≤ maxp) :
    ∀ fuel c, (rangeRows s ty id1 c).length ≤ fuel →
      paginateAll dflt maxp s ty id1 fuel c = rangeRows s ty id1 c := by
  intro fuel
  induction fuel with
  | zero =>
    intro c hc
    have hnil : rangeRows s ty id1 c = [] :=
      List.eq_nil_of_length_eq_zero (Nat.le_zero.mp hc)
    rw [hnil]
    rfl
  | succ fuel ih =>
    intro c hc
    have hone : ¬ resolveLimit dflt maxp (.Limit 1) > maxp := by
      simpa [resolveLimit] using Nat.not_lt.mpr hmax
    have hcur : afterCursor
        (if c = 0 then AssocRangeAfter.First else AssocRangeAfter.ID c) = c := by
      by_cases h0 : c = 0 <;> simp [afterCursor, h0]
    have hrange := @assoc_range_ok dflt maxp s hwf ty id1
      (if c = 0 then AssocRangeAfter.First else AssocRangeAfter.ID c) (.Limit 1) hone
    rw [hcur] at hrange
    simp only [paginateAll]
    rw [hrange]
    rcases hr : rangeRows s ty id1 c with - | ⟨a, rest⟩
    · rfl
    · show a :: paginateAll dflt maxp s ty id1 fuel a.id2 = a :: rest
      have hstep := rangeRows_cons hwf hr
      have hlen : rest.length ≤ fuel := by
        rw [hr] at hc
        exact Nat.succ_le_succ_iff.mp hc
      rw [ih a.id2 (by rw [hstep]; exact hlen), hstep]

/-- C4: `assoc_range` returns matching rows in strictly ascending `id2`
order, starting past the cursor (`First` ↦ everything, `After k` ↦ rows with
`id2 > k`); paginating with `Limit(1)` to exhaustion yields the rows in
strictly ascending `id2` order, and their concatenation equals one
`assoc_range` call with `Maximum` when the total count fits the maximum
tunable. -/
theorem assoc_range_pagination_spec (dflt maxp : Nat) (s : Store) (ty id1 : Nat)
    (hwf : s.WF) (hmax : 1 ≤ maxp)
    (hlen : (rangeRows s ty id1 0).length ≤ maxp)
    (fuel : Nat) (hfuel : (rangeRows s ty id1 0).length ≤ fuel) :
    (∀ n : Nat, n ≤ maxp →
        assoc_range dflt maxp s ty id1 .First (.Limit n) =
          .ok ((rangeRows s ty id1 0).take n) ∧
        ∀ k : Nat, assoc_range dflt maxp s ty id1 (.ID k) (.Limit n) =
          .ok ((rangeRows s ty id1 k).take n)) ∧
    (∀ c : Nat, (rangeRows s ty id1 c).Pairwise ltId2 ∧
        ∀ x : AssocStorage, x ∈ rangeRows s ty id1 c ↔
          (x ∈ s.assocs ∧ x.ty = ty ∧ x.id1 = id1 ∧ c < x.id2)) ∧
    (paginateAll dflt maxp s ty id1 fuel 0).Pairwise ltId2 ∧
    assoc_range dflt maxp s ty id1 .First .Maximum =
      .ok (paginateAll dflt maxp s ty id1 fuel 0) := by
  have hpag := @paginateAll_eq dflt maxp s ty id1 hwf hmax fuel 0 hfuel
  refine ⟨?_, ?_, ?_, ?_⟩
  · intro n hn
    have hle : ¬ resolveLimit dflt maxp (.Limit n) > maxp := by
      simpa [resolveLimit] using Nat.not_lt.mpr hn
    exact ⟨assoc_range_ok hwf ty id1 .First hle,
      fun k => assoc_range_ok hwf ty id1 (.ID k) hle⟩
  · exact fun c => ⟨pairwise_lt_rangeRows hwf ty id1 c, fun x => mem_rangeRows⟩
  · rw [hpag]
    exact pairwise_lt_rangeRows hwf ty id1 0
  · have hmaxle : ¬ resolveLimit dflt maxp .Maximum > maxp := by
      simp [resolveLimit]
    rw [assoc_range_ok hwf ty id1 .First hmaxle, hpag]
    show Except.ok ((rangeRows s ty id1 0).take maxp) = _
    rw [List.take_of_length_le hlen]

theorem assoc_range_pagination_spec_witness :
    assoc_range 100 500 stC4 1 1 .First .Maximum =
      .ok (paginateAll 100 500 stC4 1 1 3 0) :=
  (assoc_range_pagination_spec 100 500 stC4 1 1 (by decide) (by decide)
    (by decide) 3 (by decide)).2.2.2

/-! ## C7: `assoc_change_type` -/

/-- Under the assoc primary key, the `WHERE type = ? AND id1 = ? AND id2 = ?`
filter finds exactly the one row. -/
theorem assocs_filter_key_eq_singleton {s : Store} {ty id1 id2 : Nat} {a : AssocStorage}
    (hwf : s.WF) (ha : a ∈ s.assocs) (hk : assocKeyMatches ty id1 id2 a) :
    s.assocs.filter (fun b => decide (assocKeyMatches ty id1 id2 b)) = [a] := by
  refine filter_eq_singleton_of_pairwise ?_ ha (by simpa using hk)
  refine hwf.2.2.1.imp ?_
  intro x y hxy hc
  rcases hc with ⟨hx, hy⟩
  simp only [decide_eq_true_eq] at hx hy
  exact hxy ⟨hx.1.trans hy.1.symm, hx.2.1.trans hy.2.1.symm, hx.2.2.trans hy.2.2.symm⟩

/-- Characterization of a successful `assoc_change_type`: the matched row is
re-keyed to `new_ty` with `last_change = now`, and the rebuilt record is
returned.  The side condition rules out the primary-key conflict (rekeying
onto an occupied `(new_ty, id1, id2)`). -/
theorem assoc_change_type_core {s : Store} {ty id1 id2 new_ty : Nat} (now : Int)
    {a : AssocStorage} (hwf : s.WF) (ha : a ∈ s.assocs)
    (hk : assocKeyMatches ty id1 id2 a)
    (hok : new_ty = ty ∨ ∀ b ∈ s.assocs, ¬ assocKeyMatches new_ty id1 id2 b) :
    assoc_change_type s now ty id1 id2 new_ty =
      ({ s with assocs := s.assocs.map (fun b =>
          if assocKeyMatches ty id1 id2 b then
            { b with ty := new_ty, last_change := now } else b) },
       .ok { ty := new_ty, id1 := id1, id2 := id2, last_change := now,
             data := a.data }) := by
  have hhits := assocs_filter_key_eq_singleton hwf ha hk
  simp only [assoc_change_type]
  rw [hhits, if_neg]
  rintro ⟨hne, -, hany⟩
  rcases List.any_eq_true.mp hany with ⟨b, hb, hkb⟩
  simp only [decide_eq_true_eq] at hkb
  rcases hok with rfl | hnc
  · exact hne rfl
  · exact hnc b hb hkb

/-- Function `assoc_get` with both time bounds omitted, unfolded to its row scan. -/
theorem assoc_get_none_none (s : Store) (now : Int) (ty id1 : Nat)
    (id2_set : List Nat) :
    assoc_get s now ty id1 id2_set none none =
      collectResults ((s.assocs.filter (fun a =>
        decide (a.ty = ty ∧ a.id1 = id1 ∧ a.last_change ≤ now ∧
          0 ≤ a.last_change ∧ a.id2 ∈ id2_set))).map rowDecodeGet) := rfl

/-- After the re-key, querying the *new* triple finds exactly the updated
record. -/
theorem assoc_get_after_change_new {s : Store} {ty id1 id2 new_ty : Nat}
    {now now2 : Int} {a : AssocStorage} (hwf : s.WF) (ha : a ∈ s.assocs)
    (hk : assocKeyMatches ty id1 id2 a)
    (hok : new_ty = ty ∨ ∀ b ∈ s.assocs, ¬ assocKeyMatches new_ty id1 id2 b)
    (hnz : new_ty ≠ 0) (hnow : 0 ≤ now) (hnow2 : now ≤ now2) :
    assoc_get { s with assocs := s.assocs.map (fun b =>
        if assocKeyMatches ty id1 id2 b then
          { b with ty := new_ty, last_change := now } else b) }
      now2 new_ty id1 [id2] none none =
      .ok [{ ty := new_ty, id1 := id1, id2 := id2, last_change := now,
             data := a.data }] := by
  rcases hk with ⟨hty, hid1, hid2⟩
  have hfa : (if assocKeyMatches ty id1 id2 a then
      ({ a with ty := new_ty, last_change := now } : AssocStorage) else a) =
      { a with ty := new_ty, last_change := now } :=
    if_pos ⟨hty, hid1, hid2⟩
  rw [assoc_get_none_none]
  have hfil : (s.assocs.map (fun b =>
      if assocKeyMatches ty id1 id2 b then
        { b with ty := new_ty, last_change := now } else b)).filter
      (fun b => decide (b.ty = new_ty ∧ b.id1 = id1 ∧ b.last_change ≤ now2 ∧
        0 ≤ b.last_change ∧ b.id2 ∈ [id2])) =
      [{ a with ty := new_ty, last_change := now }] := by
    rw [← hfa]
    refine filter_eq_singleton_of_pairwise ?_ (List.mem_map_of_mem _ ha) ?_
    · rw [List.pairwise_map]
      refine hwf.2.2.1.imp_of_mem ?_
      intro x y hx hy hxy hc
      rcases hc with ⟨hpx, hpy⟩
      simp only [decide_eq_true_eq] at hpx hpy
      have key_of : ∀ z ∈ s.assocs,
          ((if assocKeyMatches ty id1 id2 z then
            ({ z with ty := new_ty, last_change := now } : AssocStorage) else z).ty = new_ty ∧
           (if assocKeyMatches ty id1 id2 z then
            ({ z with ty := new_ty, last_change := now } : AssocStorage) else z).id1 = id1 ∧
           (if assocKeyMatches ty id1 id2 z then
            ({ z with ty := new_ty, last_change := now } : AssocStorage) else z).id2 ∈ [id2]) →
          assocKeyMatches ty id1 id2 z := by
        intro z hz hp
        by_cases hkz : assocKeyMatches ty id1 id2 z
        · exact hkz
        · rw [if_neg hkz] at hp
          have hkz' : assocKeyMatches new_ty id1 id2 z :=
            ⟨hp.1, hp.2.1, by simpa using hp.2.2⟩
          rcases hok with rfl | hnc
          · exact absurd hkz' hkz
          · exact absurd hkz' (hnc z hz)
      have hkx := key_of x hx ⟨hpx.1, hpx.2.1, hpx.2.2.2.2⟩
      have hky := key_of y hy ⟨hpy.1, hpy.2.1, hpy.2.2.2.2⟩
      exact hxy ⟨hkx.1.trans hky.1.symm, hkx.2.1.trans hky.2.1.symm,
        hkx.2.2.trans hky.2.2.symm⟩
    · rw [hfa]
      exact decide_eq_true ⟨rfl, hid1, hnow2, hnow, List.mem_singleton.mpr hid2⟩
  rw [hfil]
  have hdec : rowDecodeGet { a with ty := new_ty, last_change := now } =
      .ok { a with ty := new_ty, last_change := now } :=
    rowDecodeGet_ok hnz (hwf.2.2.2 a ha).2.1 (hwf.2.2.2 a ha).2.2
  simp only [List.map_cons, List.map_nil, hdec, collectResults, Except.map]
  rcases a with ⟨aty, aid1, aid2, alc, adata⟩
  simp only at hid1 hid2
  subst hid1
  subst hid2
  rfl

/-- After the re-key to a different type, querying the *old* triple finds
nothing. -/
theorem assoc_get_after_change_old {s : Store} {ty id1 id2 new_ty : Nat}
    {now now2 : Int} (hne : ty ≠ new_ty) :
    assoc_get { s with assocs := s.assocs.map (fun b =>
        if assocKeyMatches ty id1 id2 b then
          { b with ty := new_ty, last_change := now } else b) }
      now2 ty id1 [id2] none none = .ok [] := by
  rw [assoc_get_none_none]
  have hfil : (s.assocs.map (fun b =>
      if assocKeyMatches ty id1 id2 b then
        { b with ty := new_ty, last_change := now } else b)).filter
      (fun b => decide (b.ty = ty ∧ b.id1 = id1 ∧ b.last_change ≤ now2 ∧
        0 ≤ b.last_change ∧ b.id2 ∈ [id2])) = [] := by
    refine List.filter_eq_nil_iff.mpr ?_
    intro z hz
    rcases List.mem_map.mp hz with ⟨x, -, rfl⟩
    simp only [decide_eq_true_eq]
    rintro ⟨hty, hid1, -, -, hid2⟩
    by_cases hkx : assocKeyMatches ty id1 id2 x
    · rw [if_pos hkx] at hty
      exact hne hty.symm
    · rw [if_neg hkx] at hty hid1 hid2
      exact hkx ⟨hty, hid1, List.mem_singleton.mp hid2⟩
  rw [hfil]
  rfl

/-- Function `assoc_change_type` on an absent old triple reports `AssocNotFound` with
that triple. -/
theorem assoc_change_type_not_found {s : Store} (now : Int) {ty id1 id2 new_ty : Nat}
    (habs : ∀ b ∈ s.assocs, ¬ assocKeyMatches ty id1 id2 b) :
    (assoc_change_type s now ty id1 id2 new_ty).2 =
      .error (.AssocNotFound ty id1 id2) := by
  have hhits : s.assocs.filter (fun b => decide (assocKeyMatches ty id1 id2 b)) = [] :=
    List.filter_eq_nil_iff.mpr (fun b hb => by simpa using habs b hb)
  simp only [assoc_change_type]
  rw [hhits, if_neg]
  rintro ⟨-, h2, -⟩
  exact h2 rfl

/-- C7 counterexample: the assoc `(ty 1, id1 1, id2 2)` is present, yet
`assoc_change_type(1, 1, 2, new_ty 2)` does not re-key it and return the
updated record — the `UPDATE` collides with the existing `(2, 1, 2)` primary
key, the statement rolls back, and the call returns the wrapped
`StorageError`. -/
theorem assoc_change_type_conflict :
    (assoc_change_type stC7 5 1 1 2 2).2 =
      .error (.StorageError .constraintViolation) ∧
    (assoc_change_type stC7 5 1 1 2 2).1 = stC7 := by decide

/-- C7 (amended): for an assoc with key `(ty, id1, id2)` present in the store
— and provided that, when `new_ty ≠ ty`, no assoc with key
`(new_ty, id1, id2)` already exists (otherwise the call fails with
`StorageError`, the engine's primary-key conflict) — `assoc_change_type`
re-keys it to `(new_ty, id1, id2)` with `last_change = now` and returns the
updated record whose `ty` equals `new_ty`; afterwards `assoc_get` on the new
triple returns exactly that record and `assoc_get` on the old triple (for
`ty ≠ new_ty`) returns empty.  If no assoc with the old triple exists the
call fails with `AssocNotFound`. -/
theorem assoc_change_type_spec (s : Store) (now now2 : Int) (ty id1 id2 new_ty : Nat)
    (hwf : s.WF) (hnz : new_ty ≠ 0) (hnow : 0 ≤ now) (hnow2 : now ≤ now2) :
    (∀ a ∈ s.assocs, assocKeyMatches ty id1 id2 a →
      (new_ty = ty ∨ ∀ b ∈ s.assocs, ¬ assocKeyMatches new_ty id1 id2 b) →
      (assoc_change_type s now ty id1 id2 new_ty).2 =
        .ok { ty := new_ty, id1 := id1, id2 := id2, last_change := now,
              data := a.data } ∧
      assoc_get (assoc_change_type s now ty id1 id2 new_ty).1 now2 new_ty id1 [id2]
        none none =
        .ok [{ ty := new_ty, id1 := id1, id2 := id2, last_change := now,
               data := a.data }] ∧
      (ty ≠ new_ty →
        assoc_get (assoc_change_type s now ty id1 id2 new_ty).1 now2 ty id1 [id2]
          none none = .ok [])) ∧
    ((∀ b ∈ s.assocs, ¬ assocKeyMatches ty id1 id2 b) →
      (assoc_change_type s now ty id1 id2 new_ty).2 =
        .error (.AssocNotFound ty id1 id2)) := by
  constructor
  · intro a ha hk hok
    rw [assoc_change_type_core now hwf ha hk hok]
    exact ⟨rfl,
      assoc_get_after_change_new hwf ha hk hok hnz hnow hnow2,
      fun hne => assoc_get_after_change_old hne⟩
  · exact fun habs => assoc_change_type_not_found now habs

theorem assoc_change_type_spec_witness :
    (assoc_change_type stC7w 8 1 1 2 2).2 =
      .ok { ty := 2, id1 := 1, id2 := 2, last_change := 8, data := [3] } :=
  (((assoc_change_type_spec stC7w 8 9 1 1 2 2 (by decide) (by decide) (by decide)
      (by decide)).1) ⟨1, 1, 2, 7, [3]⟩ (by decide) (by decide)
    (Or.inr (by decide))).1

end Tea
